import Mathlib

/-!
Verification of the plant-disease prediction gateway server (src/index.js).

The server is shallowly embedded as pure Lean functions.  Each request
handler becomes a function from an explicit environment (presence of the
uploaded file, outcome of the filesystem read, outcome of the upstream
API call, state of the filesystem at cleanup time) to a run result: the
ordered trace of externally visible events, the HTTP response that was
sent, and the exception (if any) that escaped the handler uncaught.
-/

namespace PlantServer

/-- A JavaScript Error value: only its message is observable here. -/
structure JsError where
  message : String
  deriving Repr, DecidableEq

/-- The multer upload record attached to the request (req.file). -/
structure UploadedFile where
  path : String
  originalname : String
  mimetype : String
  deriving Repr, DecidableEq

/-- Harm categories from the vendor SDK used in src/index.js. -/
inductive HarmCategory where
  | dangerousContent
  | hateSpeech
  | harassment
  | sexuallyExplicit
  deriving Repr, DecidableEq

/-- Harm block thresholds; the source only ever uses BLOCK_NONE. -/
inductive HarmBlockThreshold where
  | blockNone
  deriving Repr, DecidableEq

/-- One safety setting entry of the generateContent call. -/
structure SafetySetting where
  category : HarmCategory
  threshold : HarmBlockThreshold
  deriving Repr, DecidableEq

/-- A content part of the outgoing inference request: either inline
base64 binary data with a media type, or plain text. -/
inductive ReqPart where
  | inlineData (data : String) (mimeType : String)
  | text (s : String)
  deriving Repr, DecidableEq

/-- One content turn of the outgoing request. -/
structure Content where
  role : String
  parts : List ReqPart
  deriving Repr, DecidableEq

/-- The full argument of genAI.models.generateContent. -/
structure GenRequest where
  model : String
  contents : List Content
  safetySettings : List SafetySetting
  deriving Repr, DecidableEq

/-- A part of a returned candidate; its text field may be undefined. -/
structure RespPart where
  text : Option String
  deriving Repr, DecidableEq

/-- The content of a returned candidate; parts may be undefined. -/
structure CandContent where
  parts : Option (List RespPart)
  deriving Repr, DecidableEq

/-- One candidate returned by the upstream API. -/
structure Candidate where
  content : CandContent
  deriving Repr, DecidableEq

/-- The promptFeedback object of an upstream result. -/
structure PromptFeedback where
  blockReason : Option String
  deriving Repr, DecidableEq

/-- A successful return value of generateContent.  Both promptFeedback
and candidates may be absent, as in the SDK. -/
structure GenResult where
  promptFeedback : Option PromptFeedback
  candidates : Option (List Candidate)
  deriving Repr, DecidableEq

/-- The optional chaining result.promptFeedback?.blockReason. -/
def blockReasonOf (r : GenResult) : Option String :=
  r.promptFeedback.bind (fun pf => pf.blockReason)

/-- JSON response bodies sent by the handlers.  Fields that the source
leaves undefined are `none` and are absent from the serialized JSON. -/
structure JsonBody where
  success : Bool
  message : Option String := none
  error : Option String := none
  result : Option String := none
  deriving Repr, DecidableEq

/-- An HTTP response body: plain text (GET /) or a JSON envelope. -/
inductive Body where
  | text (s : String)
  | json (j : JsonBody)
  deriving Repr, DecidableEq

/-- An HTTP response as produced by res.status(...).send(...). -/
structure HttpResponse where
  status : Nat
  body : Body
  deriving Repr, DecidableEq

/-- Externally visible events of a handler run, in program order. -/
inductive Event where
  | readFile (path : String)
  | apiCall (req : GenRequest)
  | sendResponse (resp : HttpResponse)
  | deleteFile (path : String)
  deriving Repr, DecidableEq

/-- Result of running one handler: the ordered event trace, the single
HTTP response that was sent, and the exception (if any) that escaped
the handler function uncaught. -/
structure RunResult where
  events : List Event
  response : HttpResponse
  uncaught : Option JsError
  deriving Repr, DecidableEq

/-! ## Base64 (Buffer.toString with base64 encoding) -/

/-- The standard base64 alphabet used by Node Buffer. -/
def base64Alphabet : List Char :=
  [ 'A', 'B', 'C', 'D', 'E', 'F', 'G', 'H', 'I', 'J', 'K', 'L', 'M',
    'N', 'O', 'P', 'Q', 'R', 'S', 'T', 'U', 'V', 'W', 'X', 'Y', 'Z',
    'a', 'b', 'c', 'd', 'e', 'f', 'g', 'h', 'i', 'j', 'k', 'l', 'm',
    'n', 'o', 'p', 'q', 'r', 's', 't', 'u', 'v', 'w', 'x', 'y', 'z',
    '0', '1', '2', '3', '4', '5', '6', '7', '8', '9', '+', '/' ]

/-- The base64 digit character for a 6-bit value. -/
def b64Char (n : Nat) : Char := base64Alphabet.getD n 'A'

/-- Standard base64 encoding with padding of a byte list, as produced
by Buffer.from(bytes).toString with the base64 encoding. -/
def base64Encode : List Nat → String
  | [] => ""
  | [a] =>
      String.mk [b64Char (a / 4), b64Char (a % 4 * 16)] ++ "=="
  | [a, b] =>
      String.mk [b64Char (a / 4), b64Char (a % 4 * 16 + b / 16),
                 b64Char (b % 16 * 4)] ++ "="
  | a :: b :: c :: rest =>
      String.mk [b64Char (a / 4), b64Char (a % 4 * 16 + b / 16),
                 b64Char (b % 16 * 4 + c / 64), b64Char (c % 64)] ++
      base64Encode rest

/-- Position of a character in the base64 alphabet. -/
def b64Index (c : Char) : Nat := base64Alphabet.indexOf c

/-- Standard base64 decoding of a character list, honoring padding. -/
def base64DecodeChars : List Char → List Nat
  | c1 :: c2 :: c3 :: c4 :: rest =>
      if c3 = '=' then
        [b64Index c1 * 4 + b64Index c2 / 16]
      else if c4 = '=' then
        [b64Index c1 * 4 + b64Index c2 / 16,
         b64Index c2 % 16 * 16 + b64Index c3 / 4]
      else
        [b64Index c1 * 4 + b64Index c2 / 16,
         b64Index c2 % 16 * 16 + b64Index c3 / 4,
         b64Index c3 % 4 * 64 + b64Index c4] ++ base64DecodeChars rest
  | _ => []

/-- Standard base64 decoding of a string. -/
def base64Decode (s : String) : List Nat := base64DecodeChars s.data

/-- Decoding inverts the base64 digit map below 64. -/
theorem b64Index_b64Char : ∀ n, n < 64 → b64Index (b64Char n) = n := by decide

/-- No base64 digit is the padding character. -/
theorem b64Char_ne_pad : ∀ n, n < 64 → b64Char n ≠ '=' := by decide

/-- base64Encode is genuine base64: decoding its output recovers the
original byte list, for any list of bytes. -/
theorem base64Decode_base64Encode (bs : List Nat) (h : ∀ b ∈ bs, b < 256) :
    base64Decode (base64Encode bs) = bs := by
  unfold base64Decode
  induction bs using base64Encode.induct with
  | case1 => rfl
  | case2 a =>
      have ha : a < 256 := h a (by simp)
      simp only [base64Encode, String.data_append, List.cons_append,
        List.nil_append, base64DecodeChars]
      simp only [if_true, if_false, reduceIte]
      rw [b64Index_b64Char _ (by omega), b64Index_b64Char _ (by omega)]
      exact congrArg (fun n => ([n] : List Nat)) (by omega)
  | case3 a b =>
      have ha : a < 256 := h a (by simp)
      have hb : b < 256 := h b (by simp)
      simp only [base64Encode, String.data_append, List.cons_append,
        List.nil_append, base64DecodeChars]
      rw [if_neg (b64Char_ne_pad _ (by omega))]
      simp only [if_true, if_false, reduceIte]
      rw [b64Index_b64Char _ (by omega), b64Index_b64Char _ (by omega),
        b64Index_b64Char _ (by omega)]
      simp only [List.cons.injEq, and_true]
      exact ⟨by omega, by omega⟩
  | case4 a b c rest ih =>
      have ha : a < 256 := h a (by simp)
      have hb : b < 256 := h b (by simp)
      have hc : c < 256 := h c (by simp)
      have hrest : ∀ x ∈ rest, x < 256 := fun x hx => h x (by simp [hx])
      simp only [base64Encode, String.data_append, List.cons_append,
        base64DecodeChars]
      rw [if_neg (b64Char_ne_pad _ (by omega)), if_neg (b64Char_ne_pad _ (by omega))]
      rw [b64Index_b64Char _ (by omega), b64Index_b64Char _ (by omega),
        b64Index_b64Char _ (by omega), b64Index_b64Char _ (by omega)]
      simp only [List.append_eq, List.cons_append, List.nil_append]
      rw [ih hrest]
      simp only [List.cons.injEq, and_true]
      exact ⟨by omega, by omega, by omega⟩

/-! ## The /predict handler (src/index.js lines 42-147) -/

/-- The fixed instruction text sent with every prediction request
(the template literal at src/index.js lines 64-79). -/
def textPrompt : String :=
  "\nYou are a plant doctor specialized in helping farmers.\nAnalyze the following image of a plant leaf and provide practical advice.\n\nPlease return the response in three clear sections:\n\n1. Disease Name: Name the disease(s) affecting this leaf (if any). Keep it simple and understandable.\n2. Causes: Explain in simple terms why this disease may happen.\n3. Prevention & Remedies: Provide clear, practical steps a farmer can follow to prevent and treat the disease.\n\nFormat your response exactly like this:\n\nDisease Name:\nCauses:\nPrevention & Remedies:\n"

/-- The model identifier used by both generateContent call sites. -/
def modelId : String := "gemini-2.5-flash"

/-- The safety settings passed to both generateContent call sites:
all four harm categories at BLOCK_NONE. -/
def safetySettings : List SafetySetting :=
  [ ⟨HarmCategory.dangerousContent, HarmBlockThreshold.blockNone⟩,
    ⟨HarmCategory.hateSpeech, HarmBlockThreshold.blockNone⟩,
    ⟨HarmCategory.harassment, HarmBlockThreshold.blockNone⟩,
    ⟨HarmCategory.sexuallyExplicit, HarmBlockThreshold.blockNone⟩ ]

/-- The generateContent request built by the /predict handler from the
uploaded file bytes and declared media type (lines 57-93). -/
def mkPredictRequest (f : UploadedFile) (bytes : List Nat) : GenRequest :=
  { model := modelId
    contents :=
      [ { role := "user"
          parts := [ ReqPart.inlineData (base64Encode bytes) f.mimetype,
                     ReqPart.text textPrompt ] } ]
    safetySettings := safetySettings }

/-- Environment of one /predict request: the upload, the outcome of
readFileSync, the outcome of the upstream call, whether the temp file
still exists at cleanup time, and the outcome of unlinkSync. -/
structure PredictEnv where
  file : Option UploadedFile
  readResult : Except JsError (List Nat)
  apiResult : Except JsError GenResult
  fileExistsAtCleanup : Bool
  unlinkResult : Except JsError Unit
  deriving Repr

/-- The TypeError raised by reading index 0 of an undefined parts list. -/
def partsUndefinedError : JsError :=
  ⟨"Cannot read properties of undefined (reading 0)"⟩

/-- The TypeError raised by reading .text of an undefined element. -/
def partUndefinedError : JsError :=
  ⟨"Cannot read properties of undefined (reading text)"⟩

/-- Response handling of the /predict handler for a returned upstream
result (lines 114-132): block-reason check, empty-candidates check,
then extraction of candidates[0].content.parts[0].text. -/
def predictHandleResult (result : GenResult) : Except JsError HttpResponse :=
  match blockReasonOf result with
  | some r => Except.error ⟨"Content generation blocked: " ++ r⟩
  | none =>
    match result.candidates with
    | none => Except.error ⟨"No candidates returned from API."⟩
    | some [] => Except.error ⟨"No candidates returned from API."⟩
    | some (c :: _) =>
      match c.content.parts with
      | none => Except.error partsUndefinedError
      | some [] => Except.error partUndefinedError
      | some (p :: _) =>
        Except.ok { status := 200, body := Body.json { success := true, result := p.text } }

/-- The try block of the /predict handler (lines 53-132): read the file,
build the request, call the API, handle the result.  Returns the events
so far and either the success response or the thrown error. -/
def predictTry (f : UploadedFile) (env : PredictEnv) :
    List Event × Except JsError HttpResponse :=
  match env.readResult with
  | Except.error e => ([Event.readFile f.path], Except.error e)
  | Except.ok bytes =>
    let req := mkPredictRequest f bytes
    match env.apiResult with
    | Except.error e => ([Event.readFile f.path, Event.apiCall req], Except.error e)
    | Except.ok result =>
        ([Event.readFile f.path, Event.apiCall req], predictHandleResult result)

/-- The catch block (lines 134-140): convert a thrown error into the
uniform 500 failure envelope; pass a success response through. -/
def renderCatch (r : Except JsError HttpResponse) : HttpResponse :=
  match r with
  | Except.ok resp => resp
  | Except.error e =>
      { status := 500
        body := Body.json
          { success := false
            message := some "Error processing the prediction"
            error := some e.message } }

/-- The finally block (lines 141-146): if the temp file still exists,
unlink it.  A successful unlink yields a deleteFile event; a failing
unlink throws, and nothing in the source catches that throw, so the
error escapes the handler. -/
def cleanup (path : String) (env : PredictEnv) : List Event × Option JsError :=
  if env.fileExistsAtCleanup then
    match env.unlinkResult with
    | Except.ok _ => ([Event.deleteFile path], none)
    | Except.error e => ([], some e)
  else ([], none)

/-- The 400 response for a missing file (lines 43-48). -/
def noFileResponse : HttpResponse :=
  { status := 400
    body := Body.json { success := false, message := some "No file uploaded." } }

/-- The whole /predict handler (lines 42-147). -/
def predictHandler (env : PredictEnv) : RunResult :=
  match env.file with
  | none =>
      { events := [Event.sendResponse noFileResponse]
        response := noFileResponse
        uncaught := none }
  | some f =>
      let (pre, r) := predictTry f env
      let resp := renderCatch r
      let (post, unc) := cleanup f.path env
      { events := pre ++ [Event.sendResponse resp] ++ post
        response := resp
        uncaught := unc }

/-! ## The /test-gemini handler (src/index.js lines 150-208) -/

/-- The fixed test prompt (line 152). -/
def testPrompt : String := "Hello, Gemini!"

/-- The generateContent request of the /test-gemini handler. -/
def mkTestRequest : GenRequest :=
  { model := modelId
    contents := [ { role := "user", parts := [ReqPart.text testPrompt] } ]
    safetySettings := safetySettings }

/-- Response handling of the /test-gemini handler (lines 181-199). -/
def testHandleResult (result : GenResult) : Except JsError HttpResponse :=
  match blockReasonOf result with
  | some r => Except.error ⟨"Test content generation blocked: " ++ r⟩
  | none =>
    match result.candidates with
    | none => Except.error ⟨"No candidates returned from API in test."⟩
    | some [] => Except.error ⟨"No candidates returned from API in test."⟩
    | some (c :: _) =>
      match c.content.parts with
      | none => Except.error partsUndefinedError
      | some [] => Except.error partUndefinedError
      | some (p :: _) =>
        Except.ok
          { status := 200
            body := Body.json
              { success := true
                message := some "Gemini API is working correctly."
                result := p.text } }

/-- Environment of one /test-gemini request. -/
structure TestEnv where
  apiResult : Except JsError GenResult
  deriving Repr

/-- The whole /test-gemini handler. -/
def testGeminiHandler (env : TestEnv) : RunResult :=
  let r : Except JsError HttpResponse :=
    match env.apiResult with
    | Except.error e => Except.error e
    | Except.ok result => testHandleResult result
  let resp :=
    match r with
    | Except.ok resp => resp
    | Except.error e =>
        { status := 500
          body := Body.json
            { success := false
              message := some "Error testing the Gemini API"
              error := some e.message } }
  { events := [Event.apiCall mkTestRequest, Event.sendResponse resp]
    response := resp
    uncaught := none }

/-! ## The GET / handler (src/index.js lines 37-40) -/

/-- The static liveness body. -/
def rootBody : String := "🌱 Plant Disease Detection Server is running ✅"

/-- The whole GET / handler: a constant run, no environment. -/
def rootHandler : RunResult :=
  { events := [Event.sendResponse { status := 200, body := Body.text rootBody }]
    response := { status := 200, body := Body.text rootBody }
    uncaught := none }

/-! ## Trace helpers -/

/-- Whether an event is a file deletion. -/
def isDelete : Event → Bool
  | Event.deleteFile _ => true
  | _ => false

/-- Whether an event is a response send. -/
def isSend : Event → Bool
  | Event.sendResponse _ => true
  | _ => false

/-- Whether an event is an upstream API call. -/
def isApiCall : Event → Bool
  | Event.apiCall _ => true
  | _ => false

/-- Whether an event is a filesystem read. -/
def isRead : Event → Bool
  | Event.readFile _ => true
  | _ => false

/-- Number of deleteFile events in a trace. -/
def deleteCount (tr : List Event) : Nat := (tr.filter isDelete).length

/-- Whether an event satisfying p occurs strictly before a later event
satisfying q. -/
def precedes (p q : Event → Bool) : List Event → Bool
  | [] => false
  | e :: rest => (p e && rest.any q) || precedes p q rest

/-- Whether some deletion occurs strictly before some later send: the
literal reading of the spec ordering clause for cleanup. -/
def deletionBeforeSend (tr : List Event) : Bool := precedes isDelete isSend tr

/-- Whether some send occurs strictly before some later deletion. -/
def sendBeforeDeletion (tr : List Event) : Bool := precedes isSend isDelete tr

/-! ## Concrete fixtures -/

/-- A concrete uploaded file. -/
def exFile : UploadedFile :=
  { path := "/tmp/uploads/abc123", originalname := "leaf.jpg", mimetype := "image/jpeg" }

/-- Concrete file bytes. -/
def exBytes : List Nat := [77, 97, 110]

/-- A concrete well-formed upstream result with one candidate holding
one text part. -/
def goodResult : GenResult :=
  { promptFeedback := none
    candidates := some [ { content := { parts := some [ { text := some "Disease Name: Leaf Spot" } ] } } ] }

/-- A concrete environment for a fully successful /predict run. -/
def exEnvOk : PredictEnv :=
  { file := some exFile
    readResult := Except.ok exBytes
    apiResult := Except.ok goodResult
    fileExistsAtCleanup := true
    unlinkResult := Except.ok () }

/-- A concrete unlink failure. -/
def unlinkError : JsError :=
  { message := "EACCES: permission denied, unlink /tmp/uploads/abc123" }

/-- Like exEnvOk but the unlink call fails. -/
def exEnvUnlinkFail : PredictEnv := { exEnvOk with unlinkResult := Except.error unlinkError }

/-- An upstream result carrying a block reason. -/
def blockedResult : GenResult :=
  { promptFeedback := some { blockReason := some "SAFETY" }, candidates := none }

/-- Like exEnvOk but the upstream result is blocked. -/
def exEnvBlocked : PredictEnv := { exEnvOk with apiResult := Except.ok blockedResult }

/-- An upstream result with an empty candidate list. -/
def emptyResult : GenResult := { promptFeedback := none, candidates := some [] }

/-- Like exEnvOk but the upstream result has no candidates. -/
def exEnvEmpty : PredictEnv := { exEnvOk with apiResult := Except.ok emptyResult }

/-- An upstream result whose first candidate has an empty parts list. -/
def noPartsResult : GenResult :=
  { promptFeedback := none, candidates := some [ { content := { parts := some [] } } ] }

/-- Like exEnvOk but the first candidate has no parts. -/
def exEnvNoParts : PredictEnv := { exEnvOk with apiResult := Except.ok noPartsResult }

/-- A concrete environment for a /predict request without a file. -/
def exEnvNoFile : PredictEnv :=
  { file := none
    readResult := Except.error { message := "ENOENT" }
    apiResult := Except.error { message := "unreached" }
    fileExistsAtCleanup := false
    unlinkResult := Except.ok () }

/-! ## Sanity checks for the embedding -/

example : base64Encode [77, 97, 110] = "TWFu" := by decide

example : base64Encode [77, 97] = "TWE=" := by decide

example : base64Encode [77] = "TQ==" := by decide

example : base64Encode [] = "" := rfl

example :
    (predictHandler exEnvOk).events =
      [ Event.readFile "/tmp/uploads/abc123",
        Event.apiCall (mkPredictRequest exFile exBytes),
        Event.sendResponse (predictHandler exEnvOk).response,
        Event.deleteFile "/tmp/uploads/abc123" ] := rfl

/-! ## Claim theorems -/

/-- Claim C1, counterexample to the claim as stated: on a fully
successful concrete /predict run the temp file is deleted exactly once,
but the deletion does NOT happen before the response send: no deletion
event precedes the send event in the trace (the finally block runs
after res.send). -/
theorem C1_counterexample :
    deleteCount (predictHandler exEnvOk).events = 1 ∧
    deletionBeforeSend (predictHandler exEnvOk).events = false := by
  exact ⟨rfl, rfl⟩

/-- Claim C1 (amended): for every /predict request with an uploaded
file, at most one deletion happens and never before the response send;
when the temp file still exists at cleanup time and the unlink call
succeeds, the file is deleted exactly once, strictly after the response
send, with no uncaught error; when the file no longer exists, the
existsSync guard skips deletion entirely so no double-delete error can
surface to the client. -/
theorem C1_cleanup_exactly_once_after_send (env : PredictEnv) (f : UploadedFile)
    (hf : env.file = some f) :
    deleteCount (predictHandler env).events ≤ 1 ∧
    deletionBeforeSend (predictHandler env).events = false ∧
    (env.fileExistsAtCleanup = true → env.unlinkResult = Except.ok () →
      deleteCount (predictHandler env).events = 1 ∧
      sendBeforeDeletion (predictHandler env).events = true ∧
      (predictHandler env).uncaught = none) ∧
    (env.fileExistsAtCleanup = false →
      deleteCount (predictHandler env).events = 0 ∧
      (predictHandler env).uncaught = none) := by
  obtain ⟨file, rr, ar, fe, ur⟩ := env
  dsimp only at hf
  subst hf
  cases rr <;> cases ar <;> cases fe <;> cases ur <;>
    simp [predictHandler, predictTry, cleanup, renderCatch, deleteCount,
      deletionBeforeSend, sendBeforeDeletion, precedes, isDelete, isSend,
      eq_iff_true_of_subsingleton]

/-- Witness for C1 at the concrete successful environment. -/
theorem C1_witness :
    deleteCount (predictHandler exEnvOk).events ≤ 1 ∧
    deletionBeforeSend (predictHandler exEnvOk).events = false ∧
    (exEnvOk.fileExistsAtCleanup = true → exEnvOk.unlinkResult = Except.ok () →
      deleteCount (predictHandler exEnvOk).events = 1 ∧
      sendBeforeDeletion (predictHandler exEnvOk).events = true ∧
      (predictHandler exEnvOk).uncaught = none) ∧
    (exEnvOk.fileExistsAtCleanup = false →
      deleteCount (predictHandler exEnvOk).events = 0 ∧
      (predictHandler exEnvOk).uncaught = none) :=
  C1_cleanup_exactly_once_after_send exEnvOk exFile rfl

/-- Claim C2, counterexample to the claim as stated: on a concrete run
where the unlink call fails, the failure is not merely logged: the
thrown error escapes the /predict handler uncaught. -/
theorem C2_counterexample :
    (predictHandler exEnvUnlinkFail).uncaught = some unlinkError ∧
    (predictHandler exEnvUnlinkFail).uncaught ≠ none := by
  refine ⟨rfl, ?_⟩
  rw [show (predictHandler exEnvUnlinkFail).uncaught = some unlinkError from rfl]
  simp

/-- Claim C2 (amended): if deletion of the temporary upload file fails,
nothing in the handler catches or logs the failure: the unlink error
escapes the handler uncaught.  The HTTP response is unaffected: it was
already sent before the cleanup ran, it appears in the trace, and it is
identical to the response of the same run with a succeeding unlink, so
the failure is never surfaced to the caller in the response. -/
theorem C2_unlink_failure_escapes (env : PredictEnv) (f : UploadedFile) (e : JsError)
    (hf : env.file = some f)
    (hex : env.fileExistsAtCleanup = true)
    (hu : env.unlinkResult = Except.error e) :
    (predictHandler env).uncaught = some e ∧
    deleteCount (predictHandler env).events = 0 ∧
    Event.sendResponse (predictHandler env).response ∈ (predictHandler env).events ∧
    (predictHandler env).response =
      (predictHandler { env with unlinkResult := Except.ok () }).response := by
  obtain ⟨file, rr, ar, fe, ur⟩ := env
  dsimp only at hf hex hu
  subst hf hex hu
  cases rr <;> cases ar <;>
    simp [predictHandler, predictTry, cleanup, renderCatch, deleteCount,
      isDelete, isSend]

/-- Witness for C2 at the concrete failing-unlink environment. -/
theorem C2_witness :
    (predictHandler exEnvUnlinkFail).uncaught = some unlinkError ∧
    deleteCount (predictHandler exEnvUnlinkFail).events = 0 ∧
    Event.sendResponse (predictHandler exEnvUnlinkFail).response ∈
      (predictHandler exEnvUnlinkFail).events ∧
    (predictHandler exEnvUnlinkFail).response =
      (predictHandler { exEnvUnlinkFail with unlinkResult := Except.ok () }).response :=
  C2_unlink_failure_escapes exEnvUnlinkFail exFile unlinkError rfl rfl rfl

/-- Claim C3: when the upstream call succeeds, is not blocked, and
returns at least one candidate whose content has a first part with a
defined text, the /predict handler responds 200 with the JSON body
success true and result set to that text. -/
theorem C3_success_response (env : PredictEnv) (f : UploadedFile) (bytes : List Nat)
    (result : GenResult) (c : Candidate) (cs : List Candidate)
    (p : RespPart) (ps : List RespPart) (t : String)
    (hf : env.file = some f)
    (hr : env.readResult = Except.ok bytes)
    (ha : env.apiResult = Except.ok result)
    (hb : blockReasonOf result = none)
    (hc : result.candidates = some (c :: cs))
    (hp : c.content.parts = some (p :: ps))
    (ht : p.text = some t) :
    (predictHandler env).response =
      { status := 200, body := Body.json { success := true, result := some t } } := by
  obtain ⟨file, rr, ar, fe, ur⟩ := env
  dsimp only at hf hr ha
  subst hf hr ha
  simp [predictHandler, predictTry, renderCatch, predictHandleResult, hb, hc, hp, ht]

/-- Witness for C3 at the concrete successful environment. -/
theorem C3_witness :
    (predictHandler exEnvOk).response =
      { status := 200
        body := Body.json { success := true, result := some "Disease Name: Leaf Spot" } } :=
  C3_success_response exEnvOk exFile exBytes goodResult _ [] _ []
    "Disease Name: Leaf Spot" rfl rfl rfl rfl rfl rfl rfl

/-- Claim C4: when the upstream result carries a block reason, the
/predict handler responds 500 with the failure envelope whose error
field contains the vendor-supplied block reason string. -/
theorem C4_blocked_response (env : PredictEnv) (f : UploadedFile) (bytes : List Nat)
    (result : GenResult) (r : String)
    (hf : env.file = some f)
    (hr : env.readResult = Except.ok bytes)
    (ha : env.apiResult = Except.ok result)
    (hb : blockReasonOf result = some r) :
    (predictHandler env).response.status = 500 ∧
    (predictHandler env).response.body =
      Body.json
        { success := false
          message := some "Error processing the prediction"
          error := some ("Content generation blocked: " ++ r) } ∧
    (∃ s, (predictHandler env).response.body =
      Body.json
        { success := false
          message := some "Error processing the prediction"
          error := some (s ++ r) }) := by
  obtain ⟨file, rr, ar, fe, ur⟩ := env
  dsimp only at hf hr ha
  subst hf hr ha
  refine ⟨?_, ?_, "Content generation blocked: ", ?_⟩ <;>
    simp [predictHandler, predictTry, renderCatch, predictHandleResult, hb]

/-- Witness for C4 at the concrete blocked environment. -/
theorem C4_witness :
    (predictHandler exEnvBlocked).response.status = 500 ∧
    (predictHandler exEnvBlocked).response.body =
      Body.json
        { success := false
          message := some "Error processing the prediction"
          error := some ("Content generation blocked: " ++ "SAFETY") } ∧
    (∃ s, (predictHandler exEnvBlocked).response.body =
      Body.json
        { success := false
          message := some "Error processing the prediction"
          error := some (s ++ "SAFETY") }) :=
  C4_blocked_response exEnvBlocked exFile exBytes blockedResult "SAFETY" rfl rfl rfl rfl

/-- Claim C5: when the upstream result has no block reason and its
candidates are absent or an empty list, the /predict handler responds
500 with the no-candidates error message in the failure envelope. -/
theorem C5_no_candidates_response (env : PredictEnv) (f : UploadedFile) (bytes : List Nat)
    (result : GenResult)
    (hf : env.file = some f)
    (hr : env.readResult = Except.ok bytes)
    (ha : env.apiResult = Except.ok result)
    (hb : blockReasonOf result = none)
    (hc : result.candidates = none ∨ result.candidates = some []) :
    (predictHandler env).response =
      { status := 500
        body := Body.json
          { success := false
            message := some "Error processing the prediction"
            error := some "No candidates returned from API." } } := by
  obtain ⟨file, rr, ar, fe, ur⟩ := env
  dsimp only at hf hr ha
  subst hf hr ha
  cases hc with
  | inl h => simp [predictHandler, predictTry, renderCatch, predictHandleResult, hb, h]
  | inr h => simp [predictHandler, predictTry, renderCatch, predictHandleResult, hb, h]

/-- Witness for C5 at the concrete empty-candidates environment. -/
theorem C5_witness :
    (predictHandler exEnvEmpty).response =
      { status := 500
        body := Body.json
          { success := false
            message := some "Error processing the prediction"
            error := some "No candidates returned from API." } } :=
  C5_no_candidates_response exEnvEmpty exFile exBytes emptyResult rfl rfl rfl rfl
    (Or.inr rfl)

/-- Claim C6: a /predict request with no file gets the 400 response
with success false and the no-file message, the upstream API is never
invoked, and no file is read or deleted. -/
theorem C6_no_file_response (env : PredictEnv)
    (hf : env.file = none) :
    (predictHandler env).response =
      { status := 400
        body := Body.json { success := false, message := some "No file uploaded." } } ∧
    (predictHandler env).events.any isApiCall = false ∧
    (predictHandler env).events.any isRead = false ∧
    (predictHandler env).events.any isDelete = false := by
  obtain ⟨file, rr, ar, fe, ur⟩ := env
  dsimp only at hf
  subst hf
  simp [predictHandler, noFileResponse, isApiCall, isRead, isDelete]

/-- Witness for C6 at the concrete no-file environment. -/
theorem C6_witness :
    (predictHandler exEnvNoFile).response =
      { status := 400
        body := Body.json { success := false, message := some "No file uploaded." } } ∧
    (predictHandler exEnvNoFile).events.any isApiCall = false ∧
    (predictHandler exEnvNoFile).events.any isRead = false ∧
    (predictHandler exEnvNoFile).events.any isDelete = false :=
  C6_no_file_response exEnvNoFile rfl

/-- Claim C7: for every /predict request with a file whose bytes are
read successfully, exactly one upstream call is made, and its request
has the gemini-2.5-flash model, exactly one user turn holding one
inline part (base64 of the raw bytes, tagged with the declared media
type) followed by the one fixed instruction part, and the four safety
settings all at the non-blocking threshold. -/
theorem C7_request_shape (env : PredictEnv) (f : UploadedFile) (bytes : List Nat)
    (hf : env.file = some f)
    (hr : env.readResult = Except.ok bytes) :
    (predictHandler env).events.filter isApiCall =
      [ Event.apiCall
          { model := "gemini-2.5-flash"
            contents :=
              [ { role := "user"
                  parts := [ ReqPart.inlineData (base64Encode bytes) f.mimetype,
                             ReqPart.text textPrompt ] } ]
            safetySettings :=
              [ ⟨HarmCategory.dangerousContent, HarmBlockThreshold.blockNone⟩,
                ⟨HarmCategory.hateSpeech, HarmBlockThreshold.blockNone⟩,
                ⟨HarmCategory.harassment, HarmBlockThreshold.blockNone⟩,
                ⟨HarmCategory.sexuallyExplicit, HarmBlockThreshold.blockNone⟩ ] } ] := by
  obtain ⟨file, rr, ar, fe, ur⟩ := env
  dsimp only at hf hr
  subst hf hr
  cases ar <;> cases fe <;> cases ur <;>
    simp [predictHandler, predictTry, cleanup, mkPredictRequest, modelId,
      safetySettings, isApiCall]

/-- Witness for C7 at the concrete successful environment, with the
base64 encoding evaluated on the concrete bytes. -/
theorem C7_witness :
    (predictHandler exEnvOk).events.filter isApiCall =
      [ Event.apiCall
          { model := "gemini-2.5-flash"
            contents :=
              [ { role := "user"
                  parts := [ ReqPart.inlineData "TWFu" "image/jpeg",
                             ReqPart.text textPrompt ] } ]
            safetySettings :=
              [ ⟨HarmCategory.dangerousContent, HarmBlockThreshold.blockNone⟩,
                ⟨HarmCategory.hateSpeech, HarmBlockThreshold.blockNone⟩,
                ⟨HarmCategory.harassment, HarmBlockThreshold.blockNone⟩,
                ⟨HarmCategory.sexuallyExplicit, HarmBlockThreshold.blockNone⟩ ] } ] := by
  have h := C7_request_shape exEnvOk exFile exBytes rfl rfl
  simpa [exFile, show base64Encode exBytes = "TWFu" by decide] using h

/-- Claim C8: when the first candidate has undefined or empty parts,
the /predict handler does not crash: the TypeError is caught at the
request boundary, the response is the uniform 500 failure envelope,
and the cleanup still deletes the temp file when it exists and the
unlink succeeds, leaving no uncaught error. -/
theorem C8_no_parts_caught (env : PredictEnv) (f : UploadedFile) (bytes : List Nat)
    (result : GenResult) (c : Candidate) (cs : List Candidate)
    (hf : env.file = some f)
    (hr : env.readResult = Except.ok bytes)
    (ha : env.apiResult = Except.ok result)
    (hb : blockReasonOf result = none)
    (hc : result.candidates = some (c :: cs))
    (hp : c.content.parts = none ∨ c.content.parts = some []) :
    (predictHandler env).response.status = 500 ∧
    (∃ em, (predictHandler env).response.body =
      Body.json
        { success := false
          message := some "Error processing the prediction"
          error := some em }) ∧
    (env.fileExistsAtCleanup = true → env.unlinkResult = Except.ok () →
      Event.deleteFile f.path ∈ (predictHandler env).events ∧
      (predictHandler env).uncaught = none) := by
  obtain ⟨file, rr, ar, fe, ur⟩ := env
  dsimp only at hf hr ha
  subst hf hr ha
  cases hp with
  | inl h =>
    cases fe <;> cases ur <;>
      simp [predictHandler, predictTry, cleanup, renderCatch, predictHandleResult,
        hb, hc, h, eq_iff_true_of_subsingleton]
  | inr h =>
    cases fe <;> cases ur <;>
      simp [predictHandler, predictTry, cleanup, renderCatch, predictHandleResult,
        hb, hc, h, eq_iff_true_of_subsingleton]

/-- Witness for C8 at the concrete empty-parts environment. -/
theorem C8_witness :
    (predictHandler exEnvNoParts).response.status = 500 ∧
    (∃ em, (predictHandler exEnvNoParts).response.body =
      Body.json
        { success := false
          message := some "Error processing the prediction"
          error := some em }) ∧
    (exEnvNoParts.fileExistsAtCleanup = true →
      exEnvNoParts.unlinkResult = Except.ok () →
      Event.deleteFile exFile.path ∈ (predictHandler exEnvNoParts).events ∧
      (predictHandler exEnvNoParts).uncaught = none) :=
  C8_no_parts_caught exEnvNoParts exFile exBytes noPartsResult _ []
    rfl rfl rfl rfl rfl (Or.inr rfl)

/-! ## Shared response-handling state machine (spec section 4.3) -/

/-- The abstract outcome of one upstream result, shared by both
endpoints: blocked, no candidates, missing parts, or a first text. -/
inductive Outcome where
  | blocked (reason : String)
  | noCandidates
  | partsUndefined
  | firstPartUndefined
  | ok (text : Option String)
  deriving Repr, DecidableEq

/-- The shared classification of an upstream result: block-reason
check, then empty-candidates check, then first-part extraction. -/
def apiOutcome (result : GenResult) : Outcome :=
  match blockReasonOf result with
  | some r => Outcome.blocked r
  | none =>
    match result.candidates with
    | none => Outcome.noCandidates
    | some [] => Outcome.noCandidates
    | some (c :: _) =>
      match c.content.parts with
      | none => Outcome.partsUndefined
      | some [] => Outcome.firstPartUndefined
      | some (p :: _) => Outcome.ok p.text

/-- How the /predict handler renders each abstract outcome. -/
def renderPredictOutcome : Outcome → Except JsError HttpResponse
  | Outcome.blocked r => Except.error ⟨"Content generation blocked: " ++ r⟩
  | Outcome.noCandidates => Except.error ⟨"No candidates returned from API."⟩
  | Outcome.partsUndefined => Except.error partsUndefinedError
  | Outcome.firstPartUndefined => Except.error partUndefinedError
  | Outcome.ok t =>
      Except.ok { status := 200, body := Body.json { success := true, result := t } }

/-- How the /test-gemini handler renders each abstract outcome. -/
def renderTestOutcome : Outcome → Except JsError HttpResponse
  | Outcome.blocked r => Except.error ⟨"Test content generation blocked: " ++ r⟩
  | Outcome.noCandidates => Except.error ⟨"No candidates returned from API in test."⟩
  | Outcome.partsUndefined => Except.error partsUndefinedError
  | Outcome.firstPartUndefined => Except.error partUndefinedError
  | Outcome.ok t =>
      Except.ok
        { status := 200
          body := Body.json
            { success := true
              message := some "Gemini API is working correctly."
              result := t } }

/-- Claim C9: the /test-gemini handler builds its call with the same
model identifier and the exact same four safety settings as /predict,
its contents are the single fixed text-only prompt in place of the
image-plus-instruction parts, and both handlers factor through the
same abstract response handling apiOutcome: the same block-reason
check, empty-candidates check, and first-part text extraction. -/
theorem C9_test_gemini_equivalence :
    (∀ f bytes, mkTestRequest.model = (mkPredictRequest f bytes).model ∧
      mkTestRequest.safetySettings = (mkPredictRequest f bytes).safetySettings) ∧
    mkTestRequest.contents = [ { role := "user", parts := [ReqPart.text "Hello, Gemini!"] } ] ∧
    (∀ result, predictHandleResult result = renderPredictOutcome (apiOutcome result) ∧
      testHandleResult result = renderTestOutcome (apiOutcome result)) := by
  refine ⟨fun f bytes => ⟨rfl, rfl⟩, rfl, fun result => ⟨?_, ?_⟩⟩ <;>
  · cases hb : blockReasonOf result with
    | some r =>
        simp [predictHandleResult, testHandleResult, apiOutcome, hb,
          renderPredictOutcome, renderTestOutcome]
    | none =>
        cases hc : result.candidates with
        | none =>
            simp [predictHandleResult, testHandleResult, apiOutcome, hb, hc,
              renderPredictOutcome, renderTestOutcome]
        | some cands =>
            cases cands with
            | nil =>
                simp [predictHandleResult, testHandleResult, apiOutcome, hb, hc,
                  renderPredictOutcome, renderTestOutcome]
            | cons c cs =>
                cases hp : c.content.parts with
                | none =>
                    simp [predictHandleResult, testHandleResult, apiOutcome, hb, hc,
                      hp, renderPredictOutcome, renderTestOutcome]
                | some ps =>
                    cases ps <;>
                      simp [predictHandleResult, testHandleResult, apiOutcome, hb,
                        hc, hp, renderPredictOutcome, renderTestOutcome]

/-- Claim C10: the GET / handler always responds 200 with the fixed
non-empty plain-text body, makes no upstream call, reads and deletes
no file, and raises nothing: it has no side effect on any state. -/
theorem C10_root_liveness :
    rootHandler.response.status = 200 ∧
    rootHandler.response.body = Body.text rootBody ∧
    rootBody ≠ "" ∧
    rootHandler.events.any isApiCall = false ∧
    rootHandler.events.any isRead = false ∧
    rootHandler.events.any isDelete = false ∧
    rootHandler.uncaught = none := by
  refine ⟨rfl, rfl, ?_, rfl, rfl, rfl, rfl⟩
  decide

end PlantServer
